import Mathlib

/-!
Shallow embedding of `dashboard.py` (Morocco payments dashboard).

Modelling conventions:

* Python floats are modelled as exact rationals (`ℚ`).  All numeric tokens
  reaching `float(...)` in the source are short decimal strings, for which
  binary floating point round-trips exactly through `repr`/`format`; the
  binary representation error of IEEE-754 doubles (visible only for tokens
  with more than 17 significant digits, and for signed zero) is not modelled.
* Characters are compared as in Python with `re.IGNORECASE` over the ASCII
  range (all pattern literals in the source are ASCII); `\d` is modelled as
  the ASCII digits and `\s` as the ASCII whitespace class, matching the
  inputs the source feeds it.
* External I/O (HTTP fetches, `BeautifulSoup`, `pypdf` page decoding, the
  two app-store client libraries, `datetime.fromtimestamp`) are collaborators
  per the component contracts: their outcomes enter the embedding as
  explicit oracle parameters (`Option`-valued results, one per call site).
  Everything the repository itself computes (the regex rules, numeric
  cleaning, row construction, orchestration and fallback logic, per-app
  aggregation, whitespace collapsing) is embedded directly from the source.
* A Python exception escaping a function is modelled as `Except.error ()`.
-/

/-! ### The Python `\s` class and `re.sub` collapsing (used by `extract_text_from_pdf`) -/

/-- ASCII part of the Python `\s` class: space, tab, newline, return, vertical
tab, form feed. -/
def isPySpace (c : Char) : Bool :=
  c == ' ' || c == '\t' || c == '\n' || c == '\r' || c == '\x0b' || c == '\x0c'

/-- Scanner for `re.sub` of the pattern `\s+` by a single space: the flag records whether we are
inside a whitespace run (whose first character already emitted the single
replacement space). -/
def collapseAux : Bool → List Char → List Char
  | _, [] => []
  | inRun, c :: cs =>
    if isPySpace c then
      if inRun then collapseAux true cs else ' ' :: collapseAux true cs
    else
      c :: collapseAux false cs

/-- The `re.sub` whitespace collapse: every maximal whitespace run becomes one space. -/
def collapseWs (s : String) : String :=
  String.mk (collapseAux false s.data)

/-- Accumulator form of the `full_text` loop of `extract_text_from_pdf`. -/
def extract_pages_aux (acc : String) : List (Option String) → String
  | [] => acc
  | p :: rest =>
    match p with
    | none => extract_pages_aux acc rest
    | some t =>
      if t = "" then extract_pages_aux acc rest
      else extract_pages_aux (acc ++ collapseWs t) rest

/-- Page-accumulation loop of `extract_text_from_pdf`; each element of
`pages` is one `page.extract_text()` result (`none` = the library returned
`None`).  The source appends the whitespace-collapsed `page_text` whenever
`page_text` is truthy (not `None` and not the empty string). -/
def extract_pages_text (pages : List (Option String)) : String :=
  extract_pages_aux "" pages

/-- In-order concatenation of a list of strings. -/
def concatAll : List String → String
  | [] => ""
  | s :: rest => s ++ concatAll rest

/-- Does the character list contain two consecutive whitespace characters? -/
def hasDoubleWs : List Char → Bool
  | [] => false
  | [_] => false
  | a :: b :: rest => (isPySpace a && isPySpace b) || hasDoubleWs (b :: rest)

/-! ### `clean_value` and Python numeric primitives -/

/-- Value of a list of ASCII digit characters read in base 10. -/
def digitsVal (l : List Char) : ℕ :=
  l.foldl (fun a c => a * 10 + (c.toNat - '0'.toNat)) 0

/-- Model of Python `float(s)` on the strings reachable from `clean_value`
(strings over digits and the dot; the sign/exponent/`inf`/`nan` forms of the
full grammar are unreachable from the `[\d,]+` and `(\d+)` captures).
`float` accepts at most one dot and requires at least one digit, so `"."`,
`""` and `"1.2.3"` raise `ValueError` (modelled as `none`). -/
def pyFloat? (s : String) : Option ℚ :=
  let cs := s.data
  if cs.any Char.isDigit && cs.all (fun c => c.isDigit || c == '.') &&
      cs.count '.' ≤ 1 then
    let ip := cs.takeWhile (fun c => !(c == '.'))
    let fp := (cs.dropWhile (fun c => !(c == '.'))).drop 1
    some ((digitsVal ip : ℚ) + (digitsVal fp : ℚ) / (10 : ℚ) ^ fp.length)
  else
    none

/-- `clean_value(val_str)` from `parse_payment_data`:
float of `val_str` with spaces removed and commas turned into dots.  Both `replace`
patterns are single characters, so the two passes equal one character map
that drops spaces and turns commas into dots. -/
def clean_value (s : String) : Option ℚ :=
  pyFloat? (String.mk (s.data.filterMap
    (fun c => if c = ' ' then none else if c = ',' then some '.' else some c)))

/-- Python 3 `round` to an integer: round-half-to-even. -/
def roundHalfEven (x : ℚ) : ℤ :=
  let f : ℤ := x.floor
  let r : ℚ := x - (f : ℚ)
  if r < 1/2 then f
  else if 1/2 < r then f + 1
  else if f % 2 = 0 then f else f + 1

/-- Python `round(x, 1)`: nearest multiple of `1/10`, ties to even. -/
def pyRound1 (x : ℚ) : ℚ :=
  (roundHalfEven (x * 10) : ℚ) / 10

/-- The POS value-growth computation of the parser:
`round(((val_2023 / val_2022) - 1) * 100, 1)`. -/
def pos_value_growth (val_2022 val_2023 : ℚ) : ℚ :=
  pyRound1 ((val_2023 / val_2022 - 1) * 100)

/-- Auxiliary rendering of a natural number `m` as `m/10` with one forced
decimal digit (the nonnegative case of Python `f"{x:.1f}"`). -/
def fmt1Nat (m : ℕ) : String :=
  toString (m / 10) ++ "." ++ toString (m % 10)

/-- Python `f"{x:.1f}"` under the exact-rational model: round half-even at
one decimal and print with exactly one fractional digit. -/
def fmt1 (q : ℚ) : String :=
  let n := roundHalfEven (q * 10)
  if n < 0 then "-" ++ fmt1Nat n.natAbs else fmt1Nat n.natAbs

/-- Python `repr`/`str` of a float holding an exact decimal value: the
shortest decimal expansion, with a forced `.0` on integral values.  The
minimal number of fractional digits `k` is found by search; any reduced
denominator of a decimal value is `2^a * 5^b` with `max a b ≤ den`, so the
search range `[0, den]` always suffices. -/
def pyRepr (q : ℚ) : String :=
  let sign := if q < 0 then "-" else ""
  let a := if q < 0 then -q else q
  match (List.range (a.den + 1)).find? (fun k => (a * (10 : ℚ) ^ k).den == 1) with
  | some k =>
    let n := (a * (10 : ℚ) ^ k).num.toNat
    if k = 0 then
      sign ++ toString n ++ ".0"
    else
      let fr := toString (n % 10 ^ k)
      sign ++ toString (n / 10 ^ k) ++ "." ++
        String.mk (List.replicate (k - fr.length) '0') ++ fr
  | none => sign ++ toString a

/-! ### A backtracking matcher for the three `re.search` calls

The three patterns of `parse_payment_data` use only: case-insensitive
literals, `.` (any character except newline, `re.DOTALL` being unset),
greedy character-class plus `([\d,]+)` / `(\d+)` as capturing groups, and
the lazy gap `.*?`.  The matcher below implements exactly the Python
leftmost search with backtracking preference: earliest start position wins,
greedy groups try longest first, lazy gaps try shortest first. -/

/-- One token of a compiled pattern. -/
inductive RTok where
  | lit : Char → RTok
  | dot : RTok
  | grp : (Char → Bool) → RTok
  | gap : RTok

/-- Case-insensitive character comparison (`re.IGNORECASE`, ASCII range). -/
def charIEq (p c : Char) : Bool :=
  p.toLower == c.toLower

/-- `[n, n-1, ..., 1]`: candidate lengths for a greedy group, longest first. -/
def descRange : ℕ → List ℕ
  | 0 => []
  | n + 1 => (n + 1) :: descRange n

/-- Try the candidate group lengths in order; on the first `k` whose
continuation succeeds, record the captured prefix of length `k`. -/
def tryKs (next : List Char → Option (List (List Char)))
    (s : List Char) : List ℕ → Option (List (List Char))
  | [] => none
  | k :: ks =>
    match next (s.drop k) with
    | some caps => some (s.take k :: caps)
    | none => tryKs next s ks

/-- Fuel-indexed anchored matcher: does `toks` match a prefix of `s`,
and with which captures (in group order)?  Every recursive call strictly
decreases `s.length + toks.length`, so fuel `s.length + toks.length + 1`
never runs out (callers below always supply at least that much). -/
def matchToksF : ℕ → List RTok → List Char → Option (List (List Char))
  | 0, _, _ => none
  | _ + 1, [], _ => some []
  | f + 1, t :: ts, s =>
    match t with
    | .lit c =>
      match s with
      | [] => none
      | x :: xs => if charIEq c x then matchToksF f ts xs else none
    | .dot =>
      match s with
      | [] => none
      | x :: xs => if x == '\n' then none else matchToksF f ts xs
    | .grp cls => tryKs (matchToksF f ts) s (descRange ((s.takeWhile cls).length))
    | .gap =>
      match matchToksF f ts s with
      | some caps => some caps
      | none =>
        match s with
        | [] => none
        | x :: xs => if x == '\n' then none else matchToksF f (t :: ts) xs

/-- Leftmost search: try each start position from the left, as
`re.search` does. -/
def reSearchAux (toks : List RTok) : List Char → Option (List (List Char))
  | [] => matchToksF (toks.length + 1) toks []
  | x :: xs =>
    match matchToksF ((x :: xs).length + toks.length + 1) toks (x :: xs) with
    | some caps => some caps
    | none => reSearchAux toks xs

/-- `re.search(pattern, text, re.IGNORECASE)` returning the captures. -/
def reSearch (toks : List RTok) (s : String) : Option (List String) :=
  (reSearchAux toks s.data).map (fun caps => caps.map String.mk)

/-- Compile a string as a run of case-insensitive literals. -/
def lits (s : String) : List RTok :=
  s.data.map RTok.lit

/-- The `[\d,]` class of the `([\d,]+)` groups. -/
def isDigitComma (c : Char) : Bool :=
  c.isDigit || c == ','

/-- Pattern `hausse de ([\d,]+)% en nombre.*?passant de ([\d,]+) . ([\d,]+)
millions d\x27op.rations` (the source apostrophe is written `\x27` here). -/
def pos_num_toks : List RTok :=
  lits "hausse de " ++ [RTok.grp isDigitComma] ++ lits "% en nombre" ++
  [RTok.gap] ++ lits "passant de " ++ [RTok.grp isDigitComma] ++ lits " " ++
  [RTok.dot] ++ lits " " ++ [RTok.grp isDigitComma] ++
  lits " millions d\x27op" ++ [RTok.dot] ++ lits "rations"

/-- Pattern `valeur de ([\d,]+) milliards de dirhams en 2023 contre
([\d,]+) milliards en 2022`. -/
def pos_val_toks : List RTok :=
  lits "valeur de " ++ [RTok.grp isDigitComma] ++
  lits " milliards de dirhams en 2023 contre " ++
  [RTok.grp isDigitComma] ++ lits " milliards en 2022"

/-- Pattern `M-Wallets.*?s\x27est .tabli . ([\d,]+) millions contre ([\d,]+)
millions d\x27op.rations en 2022.*?montant total de ([\d,]+) milliards contre
([\d,]+) milliard en 2022.*?hausse de (\d+)% en nombre et en valeur`. -/
def mobile_toks : List RTok :=
  lits "M-Wallets" ++ [RTok.gap] ++ lits "s\x27est " ++ [RTok.dot] ++
  lits "tabli " ++ [RTok.dot] ++ lits " " ++ [RTok.grp isDigitComma] ++
  lits " millions contre " ++ [RTok.grp isDigitComma] ++
  lits " millions d\x27op" ++ [RTok.dot] ++ lits "rations en 2022" ++
  [RTok.gap] ++ lits "montant total de " ++ [RTok.grp isDigitComma] ++
  lits " milliards contre " ++ [RTok.grp isDigitComma] ++
  lits " milliard en 2022" ++ [RTok.gap] ++ lits "hausse de " ++
  [RTok.grp Char.isDigit] ++ lits "% en nombre et en valeur"

/-- `re.search` for `pos_num_pattern`, with its three captures. -/
def searchPosNum (text : String) : Option (String × String × String) :=
  match reSearch pos_num_toks text with
  | some [a, b, c] => some (a, b, c)
  | _ => none

/-- `re.search` for `pos_val_pattern`, with its two captures. -/
def searchPosVal (text : String) : Option (String × String) :=
  match reSearch pos_val_toks text with
  | some [a, b] => some (a, b)
  | _ => none

/-- `re.search` for `mobile_pattern`, with its five captures. -/
def searchMobile (text : String) :
    Option (String × String × String × String × String) :=
  match reSearch mobile_toks text with
  | some [a, b, c, d, e] => some (a, b, c, d, e)
  | _ => none

/-! ### Rows and `parse_payment_data` -/

/-- A DataFrame row built from a Python dict: the ordered list of
(column, value) pairs. -/
abbrev Row := List (String × String)

/-- The row dict shape shared by `parse_payment_data` and `fallback_data`. -/
def mkRow (cat metric y22 y23 growth : String) : Row :=
  [("Category", cat), ("Metric", metric), ("2022", y22), ("2023", y23),
   ("Growth (2022-2023)", growth)]

/-- The columns of every row dict in the source. -/
def report_cols : List String :=
  ["Category", "Metric", "2022", "2023", "Growth (2022-2023)"]

/-- The POS block of `parse_payment_data`: runs when both `pos_num_pattern`
and `pos_val_pattern` match; cleans the value captures, divides (a zero
2022 value raises `ZeroDivisionError`), then cleans the count captures in
the f-string evaluation order of the source.  Any `ValueError` or
`ZeroDivisionError` is `Except.error ()`. -/
def posRows (text : String) : Except Unit (List Row) :=
  match searchPosNum text, searchPosVal text with
  | some (g1, g2, g3), some (v1, v2) =>
    match clean_value v1, clean_value v2 with
    | some val2023, some val2022 =>
      if val2022 = 0 then .error ()
      else
        match clean_value g2, clean_value g3, clean_value g1 with
        | some n22, some n23, some pct =>
          .ok [mkRow "POS Payments" "Number of Transactions"
                 (fmt1 n22 ++ " million") (fmt1 n23 ++ " million")
                 ("+" ++ pyRepr pct ++ "%"),
               mkRow "" "Value of Transactions"
                 ("MAD " ++ fmt1 val2022 ++ " billion")
                 ("MAD " ++ fmt1 val2023 ++ " billion")
                 ("+" ++ pyRepr (pos_value_growth val2022 val2023) ++ "%")]
        | _, _, _ => .error ()
    | _, _ => .error ()
  | _, _ => .ok []

/-- The mobile-wallet block of `parse_payment_data`: one combined pattern,
growth cleaned first (`growth = f"+{clean_value(mobile_pattern.group(5))}%"`),
then the four count/value captures in f-string order. -/
def mobileRows (text : String) : Except Unit (List Row) :=
  match searchMobile text with
  | some (m1, m2, m3, m4, m5) =>
    match clean_value m5 with
    | some g5 =>
      match clean_value m2, clean_value m1 with
      | some a22, some a23 =>
        match clean_value m4, clean_value m3 with
        | some b22, some b23 =>
          .ok [mkRow "Mobile Payments (M-Wallet)" "Number of Transactions"
                 (fmt1 a22 ++ " million") (fmt1 a23 ++ " million")
                 ("+" ++ pyRepr g5 ++ "%"),
               mkRow "" "Value of Transactions"
                 ("MAD " ++ fmt1 b22 ++ " billion")
                 ("MAD " ++ fmt1 b23 ++ " billion")
                 ("+" ++ pyRepr g5 ++ "%")]
        | _, _ => .error ()
      | _, _ => .error ()
    | none => .error ()
  | none => .ok []

/-- `parse_payment_data(text)`: the POS block runs first (an exception
there aborts the function before the mobile block), then the mobile block;
the returned DataFrame holds the concatenated rows. -/
def parse_payment_data (text : String) : Except Unit (List Row) :=
  match posRows text with
  | .error e => .error e
  | .ok a =>
    match mobileRows text with
    | .error e => .error e
    | .ok b => .ok (a ++ b)

/-! ### `get_bam_report_data` -/

/-- The hardcoded `fallback_data` table. -/
def fallback_data : List Row :=
  [mkRow "POS Payments" "Number of Transactions" "106.4 million"
     "131.3 million" "+23%",
   mkRow "" "Value of Transactions" "MAD 39.2 billion" "MAD 46.9 billion"
     "+19.9%",
   mkRow "" "↳ of which Contactless" "55.4 million (52% of POS)"
     "75.4 million (57% of POS)" "+36.1% (in transaction count)",
   mkRow "eCommerce Payments" "Number of Transactions" "26.8 million"
     "32.1 million" "+20%",
   mkRow "" "Value of Transactions" "MAD 8.6 billion" "MAD 9.9 billion"
     "+15%",
   mkRow "Mobile Payments (M-Wallet)" "Number of Transactions" "7.9 million"
     "9.7 million" "+23%",
   mkRow "" "Value of Transactions" "MAD 1.7 billion" "MAD 2.1 billion"
     "+23%",
   mkRow "Card-based Cash Withdrawals" "Number of Transactions" "360 million"
     "402 million" "+12%",
   mkRow "" "Value of Transactions" "MAD 351 billion" "MAD 399 billion"
     "+13%"]

/-- The hardcoded landing-page URL `page_url`. -/
def page_url : String :=
  "https://www.bkam.ma/fr/Publications-et-recherche/Publications-institutionnelles/Rapport-annuel-sur-les-infrastructures-des-marches-financiers-et-les-moyens-de-paiement-leur-surveillance-et-l-inclusion-financiere"

/-- Oracle outcomes of the two I/O-bound inner helpers for one acquisition
run: `locate` is the value returned by `get_latest_report_url(page_url)`
(`none` for its `return None` paths) and `extract` the value returned by
`extract_text_from_pdf` on a given document URL (`none` for its error
path). -/
structure AcqEnv where
  locate : Option String
  extract : String → Option String

/-- `get_bam_report_data()`, given the oracle outcomes and the prior
session state `st.session_state.bam_source_url` (`none` when the key is
absent).  Returns the produced table together with the recorded source
reference, or `Except.error` when `parse_payment_data` raises.  Python
truthiness of `if latest_pdf_url:` / `if report_text:` makes the empty
string behave like `None` at both tests, and the trailing
final absent-key check on the session state keeps a previously recorded
reference. -/
def get_bam_report_data (env : AcqEnv) (prior : Option String) :
    Except Unit (List Row × String) :=
  match env.locate with
  | some url =>
    if url = "" then .ok (fallback_data, prior.getD page_url)
    else
      match env.extract url with
      | some text =>
        if text = "" then .ok (fallback_data, url)
        else
          match parse_payment_data text with
          | .error e => .error e
          | .ok rows =>
            if rows.isEmpty then .ok (fallback_data, url) else .ok (rows, url)
      | none => .ok (fallback_data, url)
  | none => .ok (fallback_data, prior.getD page_url)

/-! ### `get_app_store_data` -/

/-- Fields read off a `google_play_scraper.app(...)` result dict;
`none` models an absent key or a JSON `null` (`dict.get` returns `None`). -/
structure AndroidDetails where
  installs : Option String
  score : Option ℚ
  ratings : Option ℤ
  updated : Option ℤ
  description : Option String
deriving DecidableEq

/-- Fields read off `requests.get(itunes-lookup).json()["results"][0]`. -/
structure IosDetails where
  averageUserRating : Option ℚ
  userRatingCount : Option ℤ
  currentVersionReleaseDate : Option String
  description : Option String
deriving DecidableEq

/-- One output row of `get_app_store_data`. -/
structure AppEntry where
  wallet : String
  platform : String
  installs : Option String
  score : Option ℚ
  ratings : Option ℤ
  last_updated : String
  description : String
deriving DecidableEq, Repr

/-- Python `split` on `T`, first component: the characters before the first `T`. -/
def before_T (s : String) : String :=
  String.mk (s.data.takeWhile (fun c => !(c == 'T')))

/-- The per-app Android loop body: `none` when the `try` block raises —
either the store query itself (`api` oracle yields `none`) or
`datetime.fromtimestamp` applied to a missing/null
`updated` field (`TypeError`).  `fmtTs` is the `datetime.fromtimestamp`
plus `strftime` date-formatting capability. -/
def processAndroid (fmtTs : ℤ → String)
    (api : String → Option AndroidDetails) (p : String × String) :
    Option AppEntry :=
  match api p.2 with
  | none => none
  | some d =>
    match d.updated with
    | none => none
    | some t =>
      some { wallet := p.1, platform := "Android", installs := d.installs,
             score := d.score, ratings := d.ratings,
             last_updated := fmtTs t,
             description := String.mk ((d.description.getD "").data.take 200) }

/-- The per-app iOS loop body: `none` when the lookup/JSON access raises. -/
def processIos (api : String → Option IosDetails) (p : String × String) :
    Option AppEntry :=
  match api p.2 with
  | none => none
  | some d =>
    some { wallet := p.1, platform := "iOS", installs := some "N/A",
           score := d.averageUserRating, ratings := d.userRatingCount,
           last_updated := before_T (d.currentVersionReleaseDate.getD ""),
           description := String.mk ((d.description.getD "").data.take 200) }

/-- `get_app_store_data()`: iterate the Android registry, skipping each app
whose `try` block raises, then the iOS registry likewise, and concatenate
(`pd.concat([df_android, df_ios], ignore_index=True)`).  The two registry
dicts and the three external capabilities are explicit parameters. -/
def get_app_store_data (fmtTs : ℤ → String)
    (apiA : String → Option AndroidDetails)
    (apiI : String → Option IosDetails)
    (regA regI : List (String × String)) : List AppEntry :=
  regA.filterMap (processAndroid fmtTs apiA) ++ regI.filterMap (processIos apiI)

/-- The `wallet_apps_android` registry dict, in insertion order. -/
def wallet_apps_android : List (String × String) :=
  [("Wafa Cash (Jibi Pro)", "com.b3g.wafacash.jibivpro"),
   ("Chaabi Pay", "com.wallet.m2t"),
   ("Cash Plus", "com.cashplus.mobileapp"),
   ("Damane Pay", "co.ma.damanecash.android"),
   ("Al Barid Pay", "ma.baridcash.saphir.baridpay"),
   ("JIBI", "com.b3g.wafacash.jibi"),
   ("Ora", "com.oracash"),
   ("Kenzup", "com.kenzup.app.prod"),
   ("Lana Cash", "com.b3g.cih.wepay"),
   ("Yassir", "com.yatechnologies.yassir_rider"),
   ("Glovo", "com.glovo")]

/-- The `wallet_apps_ios` registry dict, in insertion order. -/
def wallet_apps_ios : List (String × String) :=
  [("Wafa Cash (Jibi Pro)", "1371478054"),
   ("Chaabi Pay", "1504267861"),
   ("Cash Plus", "1479205181"),
   ("Damane Pay", "1506971587"),
   ("Al Barid Pay", "720775151"),
   ("JIBI", "1200782472"),
   ("Ora", "6670762251"),
   ("Kenzup", "1518977114"),
   ("Lana Cash", "1618148242"),
   ("Yassir", "1239926325"),
   ("Glovo", "951812684")]

/-- Text on which both POS sub-patterns match but whose 2022 value token is
`"0"`, so `(val_2023 / val_2022)` raises `ZeroDivisionError` inside
`parse_payment_data`, outside every `try` block. -/
def t3_text : String :=
  "hausse de 12% en nombre passant de 3 a 4 millions d\x27operations valeur de 46,9 milliards de dirhams en 2023 contre 0 milliards en 2022"

/-- Text matched by both POS sub-patterns with well-formed numeric tokens
(an ASCII rendering of the BAM report phrasing). -/
def t6_text : String :=
  "hausse de 23% en nombre passant de 106,4 a 131,3 millions d\x27operations valeur de 46,9 milliards de dirhams en 2023 contre 39,2 milliards en 2022"

/-- Text on which both POS sub-patterns match (`[\d,]+` happily captures a
lone comma) but whose captured percentage token `","` cleans to `"."`,
which `float` rejects. -/
def t6c_text : String :=
  "hausse de ,% en nombre passant de 3 a 4 millions d\x27operations valeur de 5 milliards de dirhams en 2023 contre 4 milliards en 2022"

/-- Fixture timestamp formatter for app-store runs. -/
def demo_fmt_ts : ℤ → String := fun _ => "2023-11-15"

/-- Fixture Android store result with a present `updated` field. -/
def demo_android_details : AndroidDetails :=
  { installs := some "100+", score := some (45/10), ratings := some 10,
    updated := some 1700000000, description := some "wallet app" }

/-- Fixture Android store result whose `updated` field is absent/null. -/
def demo_android_noupd : AndroidDetails :=
  { installs := some "500+", score := some 4, ratings := some 7,
    updated := none, description := some "second app" }

/-- Fixture Android API: succeeds for `"a1"`, raises for everything else. -/
def demo_api_fail : String → Option AndroidDetails :=
  fun id => if id = "a1" then some demo_android_details else none

/-- Fixture Android API: succeeds for `"a1"` and for `"a0"`, the latter
with a missing `updated` field. -/
def demo_api_noupd : String → Option AndroidDetails :=
  fun id =>
    if id = "a1" then some demo_android_details
    else if id = "a0" then some demo_android_noupd else none

/-- Fixture iOS store result. -/
def demo_ios_details : IosDetails :=
  { averageUserRating := some 4, userRatingCount := some 25,
    currentVersionReleaseDate := some "2023-10-01T12:00:00Z",
    description := some "ios wallet" }

/-- Fixture iOS API: succeeds for `"i1"`, raises for everything else. -/
def demo_api_ios_fail : String → Option IosDetails :=
  fun id => if id = "i1" then some demo_ios_details else none

/-- The aggregate entry produced for `("W1", "a1")` by the fixture API. -/
def demo_entry : AppEntry :=
  { wallet := "W1", platform := "Android", installs := some "100+",
    score := some (45/10), ratings := some 10, last_updated := "2023-11-15",
    description := "wallet app" }

/-- Decidable equality for `Except`, used to evaluate embedded results on
concrete inputs. -/
instance {ε α : Type _} [DecidableEq ε] [DecidableEq α] :
    DecidableEq (Except ε α) := fun a b =>
  match a, b with
  | .error e, .error e' =>
    if h : e = e' then isTrue (by rw [h]) else isFalse (by simp [h])
  | .ok x, .ok y =>
    if h : x = y then isTrue (by rw [h]) else isFalse (by simp [h])
  | .error _, .ok _ => isFalse (by simp)
  | .ok _, .error _ => isFalse (by simp)

section ProofDevelopment

attribute [local semireducible] Rat.add Rat.mul Rat.sub Rat.inv Rat.ofScientific

/-! ### Helper lemmas -/

/-- Every `.ok` result of the POS block consists of rows with the fixed
column list. -/
lemma posRows_cols {text : String} {rows : List Row}
    (h : posRows text = .ok rows) : ∀ r ∈ rows, r.map Prod.fst = report_cols := by
  intro r hr
  unfold posRows at h
  repeat' split at h
  all_goals first
    | (injection h with h; subst h; simp at hr)
    | injection h
  all_goals (rcases hr with rfl | rfl <;> rfl)

/-- Every `.ok` result of the mobile block consists of rows with the fixed
column list. -/
lemma mobileRows_cols {text : String} {rows : List Row}
    (h : mobileRows text = .ok rows) : ∀ r ∈ rows, r.map Prod.fst = report_cols := by
  intro r hr
  unfold mobileRows at h
  repeat' split at h
  all_goals first
    | (injection h with h; subst h; simp at hr)
    | injection h
  all_goals (rcases hr with rfl | rfl <;> rfl)

/-- Every row of a parsed table carries the fixed column list. -/
lemma parse_cols {text : String} {rows : List Row}
    (h : parse_payment_data text = .ok rows) :
    ∀ r ∈ rows, r.map Prod.fst = report_cols := by
  intro r hr
  unfold parse_payment_data at h
  repeat' split at h
  all_goals first
    | (injection h with h; subst h;
       exact (List.mem_append.1 hr).elim
         (fun h' => posRows_cols (by assumption) r h')
         (fun h' => mobileRows_cols (by assumption) r h'))
    | injection h

/-! ### Claims -/

/-- C1: whenever the locator returns `None`, or the extractor returns
`None`, or the parser returns an empty table, `get_bam_report_data`
returns exactly the hardcoded `fallback_data` table, whose rows
carry exactly the columns Category, Metric, 2022, 2023, Growth (2022-2023)
— the same columns as every row of any successfully parsed table. -/
theorem c1_fallback_shape (env : AcqEnv) (prior : Option String)
    (h : env.locate = none ∨
      (∃ url, env.locate = some url ∧ env.extract url = none) ∨
      (∃ url text, env.locate = some url ∧ env.extract url = some text ∧
        parse_payment_data text = .ok [])) :
    (get_bam_report_data env prior).map Prod.fst = .ok fallback_data ∧
    (∀ r ∈ fallback_data, r.map Prod.fst = report_cols) ∧
    (∀ text rows, parse_payment_data text = .ok rows →
      ∀ r ∈ rows, r.map Prod.fst = report_cols) := by
  refine ⟨?_, ?_, ?_⟩
  · rcases h with h | ⟨url, hl, he⟩ | ⟨url, text, hl, he, hp⟩
    · simp [get_bam_report_data, h, Except.map]
    · by_cases hu : url = "" <;>
        simp [get_bam_report_data, hl, hu, he, Except.map]
    · by_cases hu : url = ""
      · simp [get_bam_report_data, hl, hu, Except.map]
      · by_cases ht : text = "" <;>
          simp [get_bam_report_data, hl, hu, he, ht, hp, Except.map]
  · intro r hr
    simp [fallback_data] at hr
    rcases hr with rfl | rfl | rfl | rfl | rfl | rfl | rfl | rfl | rfl <;> rfl
  · intro text rows hp
    exact parse_cols hp

/-- C1 witness: a run whose locator fails produces exactly the fallback
table. -/
theorem c1_fallback_shape_app :
    (get_bam_report_data ⟨none, fun _ => none⟩ none).map Prod.fst =
      .ok fallback_data :=
  (c1_fallback_shape ⟨none, fun _ => none⟩ none (Or.inl rfl)).1

/-- C2 (amended): if the locator returns a (nonempty) document URL and
extraction or parsing then fails, the recorded source reference is that
document URL; if the locator fails, the reference is the previously
recorded one when the session already holds one, and the landing-page URL
only otherwise. -/
theorem c2_source_reference (env : AcqEnv) (prior : Option String) :
    (∀ url, env.locate = some url → url ≠ "" →
      (env.extract url = none ∨
        ∃ text, env.extract url = some text ∧ parse_payment_data text = .ok []) →
      get_bam_report_data env prior = .ok (fallback_data, url)) ∧
    (env.locate = none →
      get_bam_report_data env prior = .ok (fallback_data, prior.getD page_url)) := by
  constructor
  · intro url hl hu hfail
    rcases hfail with he | ⟨text, he, hp⟩
    · simp [get_bam_report_data, hl, hu, he]
    · by_cases ht : text = "" <;> simp [get_bam_report_data, hl, hu, he, ht, hp]
  · intro h
    simp [get_bam_report_data, h]

/-- C2 witness: locator success, extractor failure — the reference is the
located document URL. -/
theorem c2_source_reference_app :
    get_bam_report_data ⟨some "https://www.bkam.ma/doc-2023.pdf", fun _ => none⟩
        none = .ok (fallback_data, "https://www.bkam.ma/doc-2023.pdf") :=
  (c2_source_reference ⟨some "https://www.bkam.ma/doc-2023.pdf", fun _ => none⟩
    none).1 "https://www.bkam.ma/doc-2023.pdf" rfl (by decide) (Or.inl rfl)

/-- C2 counterexample: in a session that already recorded a source
reference, a run whose locator fails keeps the stale reference instead of
reverting to the landing-page URL, contradicting the claim as stated. -/
theorem c2_counterexample :
    get_bam_report_data ⟨none, fun _ => none⟩
        (some "https://old.example/report-2022.pdf") =
      .ok (fallback_data, "https://old.example/report-2022.pdf") ∧
    "https://old.example/report-2022.pdf" ≠ page_url :=
  ⟨rfl, by decide⟩

set_option maxRecDepth 40000 in
/-- C3: the claim that `parse_payment_data` returns a table for every
input and that `get_bam_report_data` never raises is contradicted by the
code: on `t3_text` the parser raises (modelled as `Except.error`), and the
exception escapes `get_bam_report_data`. -/
theorem c3_unhandled_error :
    parse_payment_data t3_text = .error () ∧
    get_bam_report_data ⟨some "https://www.bkam.ma/doc.pdf",
        fun _ => some t3_text⟩ none = .error () := by
  decide

/-- C4: the growth computation of the parser on `value_prior = 39.2`,
`value_current = 46.9` yields exactly 19.6. -/
theorem c4_growth_computation :
    pos_value_growth (39.2 : ℚ) (46.9 : ℚ) = (19.6 : ℚ) := by
  decide

/-- C5: `clean_value` maps `"131,3"` to 131.3 and `"1 234,5"` to 1234.5. -/
theorem c5_numeric_normalization :
    clean_value "131,3" = some (131.3 : ℚ) ∧
    clean_value "1 234,5" = some (1234.5 : ℚ) := by
  decide

/-- C9: every table `get_bam_report_data` actually returns is nonempty —
the success path requires a nonempty parse and every fallback path returns
the fixed 9-row fallback table — so the downstream empty-table warning
branch is unreachable. -/
theorem c9_nonempty_table (env : AcqEnv) (prior : Option String)
    (t : List Row) (ref : String)
    (h : get_bam_report_data env prior = .ok (t, ref)) :
    t ≠ [] ∧ fallback_data.length = 9 := by
  refine ⟨?_, rfl⟩
  have hfb : fallback_data ≠ [] := by simp [fallback_data]
  unfold get_bam_report_data at h
  repeat' split at h
  all_goals first
    | (injection h with h; injection h with h1 h2; subst h1; exact hfb)
    | (injection h with h; injection h with h1 h2; subst h1;
       intro hnil; subst hnil; simp_all)
    | injection h

/-- C9 witness: a locator-failure run returns the fallback table, which is
nonempty and has 9 rows. -/
theorem c9_nonempty_table_app :
    fallback_data ≠ [] ∧ fallback_data.length = 9 :=
  c9_nonempty_table ⟨none, fun _ => none⟩ none fallback_data page_url rfl

/-- Every successful `processAndroid` entry carries the registry wallet
name and the Android platform tag. -/
lemma processAndroid_some {fmtTs : ℤ → String}
    {api : String → Option AndroidDetails} {p : String × String}
    {e : AppEntry} (h : processAndroid fmtTs api p = some e) :
    e.wallet = p.1 ∧ e.platform = "Android" := by
  unfold processAndroid at h
  repeat' split at h
  all_goals first
    | (injection h with h; subst h; exact ⟨rfl, rfl⟩)
    | injection h

/-- Every successful `processIos` entry carries the registry wallet name
and the iOS platform tag. -/
lemma processIos_some {api : String → Option IosDetails}
    {p : String × String} {e : AppEntry} (h : processIos api p = some e) :
    e.wallet = p.1 ∧ e.platform = "iOS" := by
  unfold processIos at h
  repeat' split at h
  all_goals first
    | (injection h with h; subst h; exact ⟨rfl, rfl⟩)
    | injection h

/-- In a list of pairs whose keys are nodup, a key determines its value. -/
lemma keys_nodup_val_eq {α β : Type _} :
    ∀ (l : List (α × β)), (l.map Prod.fst).Nodup →
      ∀ {n : α} {i i' : β}, (n, i) ∈ l → (n, i') ∈ l → i = i' := by
  intro l
  induction l with
  | nil => intro _ n i i' h1 _; cases h1
  | cons hd tl ih =>
    intro hnd n i i' h1 h2
    rw [List.map_cons, List.nodup_cons] at hnd
    rcases List.mem_cons.1 h1 with he1 | ht1 <;>
      rcases List.mem_cons.1 h2 with he2 | ht2
    · exact ((Prod.mk.injEq ..).mp (he1.trans he2.symm)).2
    · exfalso
      apply hnd.1
      have hmm : n ∈ List.map Prod.fst tl := List.mem_map_of_mem Prod.fst ht2
      rw [← he1]
      exact hmm
    · exfalso
      apply hnd.1
      have hmm : n ∈ List.map Prod.fst tl := List.mem_map_of_mem Prod.fst ht1
      rw [← he2]
      exact hmm
    · exact ih hnd.2 ht1 ht2

/-- C6 (amended): the POS rule emits no rows when either sub-pattern fails
to match, and emits exactly its two rows when both match and every cleaned
numeric token converts (with a nonzero prior-year value); the count-row
growth is the cleaned captured percentage while the value-row growth is
computed by `round(((val_2023 / val_2022) - 1) * 100, 1)`, independent of
any percentage in the text. -/
theorem c6_pos_rule (text : String) :
    ((searchPosNum text = none ∨ searchPosVal text = none) →
      posRows text = .ok []) ∧
    (∀ g1 g2 g3 v1 v2 pct n22 n23 v22 v23,
      searchPosNum text = some (g1, g2, g3) →
      searchPosVal text = some (v1, v2) →
      clean_value v1 = some v23 → clean_value v2 = some v22 → v22 ≠ 0 →
      clean_value g2 = some n22 → clean_value g3 = some n23 →
      clean_value g1 = some pct →
      posRows text = .ok
        [mkRow "POS Payments" "Number of Transactions"
           (fmt1 n22 ++ " million") (fmt1 n23 ++ " million")
           ("+" ++ pyRepr pct ++ "%"),
         mkRow "" "Value of Transactions" ("MAD " ++ fmt1 v22 ++ " billion")
           ("MAD " ++ fmt1 v23 ++ " billion")
           ("+" ++ pyRepr (pos_value_growth v22 v23) ++ "%")]) := by
  constructor
  · rintro (h | h) <;> cases hsn : searchPosNum text <;>
      simp_all [posRows]
  · intro g1 g2 g3 v1 v2 pct n22 n23 v22 v23 hsn hsv h1 h2 hnz h3 h4 h5
    simp [posRows, hsn, hsv, h1, h2, hnz, h3, h4, h5]

set_option maxRecDepth 40000 in
/-- C6 counterexample: on `t6c_text` both POS sub-patterns match, yet the
rule emits no rows — `clean_value` raises on the captured token `","` —
refuting the claimed "if and only if". -/
theorem c6_counterexample :
    (searchPosNum t6c_text).isSome = true ∧
    (searchPosVal t6c_text).isSome = true ∧
    posRows t6c_text = .error () := by
  decide

set_option maxRecDepth 40000 in
/-- C6 witness: on `t6_text` the rule emits its two rows; the count growth
"+23.0%" is the cleaned captured token while the value growth "+19.6%" is
computed from 46.9 and 39.2. -/
theorem c6_pos_rule_app :
    posRows t6_text = .ok
      [mkRow "POS Payments" "Number of Transactions" "106.4 million"
         "131.3 million" "+23.0%",
       mkRow "" "Value of Transactions" "MAD 39.2 billion"
         "MAD 46.9 billion" "+19.6%"] := by
  have h := (c6_pos_rule t6_text).2 "23" "106,4" "131,3" "46,9" "39,2"
    (23 : ℚ) (532/5 : ℚ) (1313/10 : ℚ) (196/5 : ℚ) (469/10 : ℚ)
    (by decide) (by decide) (by decide) (by decide) (by decide)
    (by decide) (by decide) (by decide)
  exact h.trans (by decide)

/-- C7: a failing store query for one (wallet, platform) pair — on either
platform — removes exactly that pair from the aggregate: the output equals
the aggregate over the registry without that pair (all other entries
unchanged, the other registry untouched), and no entry for the failed pair
appears.  `R1 ++ (n0, id0) :: R2` is the registry holding the failing pair
and `other` the registry of the other platform. -/
theorem c7_per_app_isolation (fmtTs : ℤ → String)
    (apiA : String → Option AndroidDetails)
    (apiI : String → Option IosDetails)
    (R1 R2 other : List (String × String)) (n0 id0 : String) :
    (apiA id0 = none →
      get_app_store_data fmtTs apiA apiI (R1 ++ (n0, id0) :: R2) other =
        get_app_store_data fmtTs apiA apiI (R1 ++ R2) other ∧
      (n0 ∉ (R1 ++ R2).map Prod.fst →
        ∀ e ∈ get_app_store_data fmtTs apiA apiI (R1 ++ (n0, id0) :: R2) other,
          ¬(e.wallet = n0 ∧ e.platform = "Android"))) ∧
    (apiI id0 = none →
      get_app_store_data fmtTs apiA apiI other (R1 ++ (n0, id0) :: R2) =
        get_app_store_data fmtTs apiA apiI other (R1 ++ R2) ∧
      (n0 ∉ (R1 ++ R2).map Prod.fst →
        ∀ e ∈ get_app_store_data fmtTs apiA apiI other (R1 ++ (n0, id0) :: R2),
          ¬(e.wallet = n0 ∧ e.platform = "iOS"))) := by
  constructor
  · intro hfail
    have hnone : processAndroid fmtTs apiA (n0, id0) = none := by
      simp [processAndroid, hfail]
    constructor
    · simp [get_app_store_data, List.filterMap_append, List.filterMap_cons,
        hnone]
    · rintro hn e he ⟨hw, hp⟩
      simp only [get_app_store_data, List.mem_append] at he
      rcases he with hA | hI
      · obtain ⟨p, hpmem, hps⟩ := List.mem_filterMap.1 hA
        obtain ⟨hw', _⟩ := processAndroid_some hps
        have hp1 : p.1 = n0 := by rw [← hw', hw]
        rcases List.mem_append.1 hpmem with h1 | h2
        · exact hn (hp1 ▸ List.mem_map_of_mem Prod.fst (List.mem_append_left R2 h1))
        · rcases List.mem_cons.1 h2 with rfl | h3
          · rw [hnone] at hps; cases hps
          · exact hn (hp1 ▸ List.mem_map_of_mem Prod.fst (List.mem_append_right R1 h3))
      · obtain ⟨p, _, hps⟩ := List.mem_filterMap.1 hI
        have := (processIos_some hps).2
        rw [hp] at this
        exact absurd this (by decide)
  · intro hfail
    have hnone : processIos apiI (n0, id0) = none := by
      simp [processIos, hfail]
    constructor
    · simp [get_app_store_data, List.filterMap_append, List.filterMap_cons,
        hnone]
    · rintro hn e he ⟨hw, hp⟩
      simp only [get_app_store_data, List.mem_append] at he
      rcases he with hA | hI
      · obtain ⟨p, _, hps⟩ := List.mem_filterMap.1 hA
        have := (processAndroid_some hps).2
        rw [hp] at this
        exact absurd this (by decide)
      · obtain ⟨p, hpmem, hps⟩ := List.mem_filterMap.1 hI
        obtain ⟨hw', _⟩ := processIos_some hps
        have hp1 : p.1 = n0 := by rw [← hw', hw]
        rcases List.mem_append.1 hpmem with h1 | h2
        · exact hn (hp1 ▸ List.mem_map_of_mem Prod.fst (List.mem_append_left R2 h1))
        · rcases List.mem_cons.1 h2 with rfl | h3
          · rw [hnone] at hps; cases hps
          · exact hn (hp1 ▸ List.mem_map_of_mem Prod.fst (List.mem_append_right R1 h3))

/-- C7 witness: an aggregate over both registries, exercising both halves —
a failing Android query for `W0` and, separately, a failing iOS query for
`W2` each drop exactly that pair from the output. -/
theorem c7_per_app_isolation_app :
    get_app_store_data demo_fmt_ts demo_api_fail demo_api_ios_fail
        [("W1", "a1"), ("W0", "a0")] [("W1", "i1")] =
      get_app_store_data demo_fmt_ts demo_api_fail demo_api_ios_fail
        [("W1", "a1")] [("W1", "i1")] ∧
    get_app_store_data demo_fmt_ts demo_api_fail demo_api_ios_fail
        [("W1", "a1")] [("W1", "i1"), ("W2", "i0")] =
      get_app_store_data demo_fmt_ts demo_api_fail demo_api_ios_fail
        [("W1", "a1")] [("W1", "i1")] :=
  ⟨((c7_per_app_isolation demo_fmt_ts demo_api_fail demo_api_ios_fail
      [("W1", "a1")] [] [("W1", "i1")] "W0" "a0").1 (by decide)).1,
   ((c7_per_app_isolation demo_fmt_ts demo_api_fail demo_api_ios_fail
      [("W1", "i1")] [] [("W1", "a1")] "W2" "i0").2 (by decide)).1⟩

/-- C8 (amended): when every page yields some (nonempty) text, the
extracted string is the in-order concatenation of the per-page
whitespace-collapsed texts, with no page-boundary marker; whitespace runs
are collapsed within each page, not across page boundaries. -/
theorem c8_per_page_collapse (pages : List String)
    (h : ∀ t ∈ pages, t ≠ "") :
    extract_pages_text (pages.map some) =
      concatAll (pages.map collapseWs) := by
  suffices haux : ∀ (ps : List String) (acc : String), (∀ t ∈ ps, t ≠ "") →
      extract_pages_aux acc (ps.map some) = acc ++ concatAll (ps.map collapseWs) by
    simpa [extract_pages_text] using haux pages "" h
  intro ps
  induction ps with
  | nil => intro acc _; simp [extract_pages_aux, concatAll]
  | cons t rest ih =>
    intro acc hne
    have ht : t ≠ "" := hne t (List.mem_cons_self t rest)
    simp only [List.map_cons, extract_pages_aux, ht, if_false, concatAll]
    rw [ih (acc ++ collapseWs t) (fun x hx => hne x (List.mem_cons_of_mem t hx)),
      String.append_assoc]

/-- C8 witness: two pages, each with internal whitespace runs, concatenate
page-by-page after per-page collapsing. -/
theorem c8_per_page_collapse_app :
    extract_pages_text ([" x", "y\t z"].map some) =
      concatAll ([" x", "y\t z"].map collapseWs) :=
  c8_per_page_collapse [" x", "y\t z"] (by decide)

/-- C8 counterexample: two pages that each yield text, one ending and the
next beginning with whitespace; the result `"a  b"` contains two
consecutive whitespace characters, refuting the claimed global collapse. -/
theorem c8_counterexample :
    extract_pages_text [some "a ", some " b"] = "a  b" ∧
    hasDoubleWs ("a  b").data = true ∧
    ("a " ≠ "" ∧ " b" ≠ "") := by
  decide

/-- C10: an Android registry entry whose store query succeeds but whose
details lack the `updated` timestamp is silently skipped: no aggregate
entry exists for that (wallet, Android) pair. -/
theorem c10_missing_updated (fmtTs : ℤ → String)
    (apiA : String → Option AndroidDetails)
    (apiI : String → Option IosDetails)
    (regA regI : List (String × String)) (n0 id0 : String)
    (d : AndroidDetails) (hnd : (regA.map Prod.fst).Nodup)
    (hmem : (n0, id0) ∈ regA) (hq : apiA id0 = some d)
    (hu : d.updated = none) :
    ∀ e ∈ get_app_store_data fmtTs apiA apiI regA regI,
      ¬(e.wallet = n0 ∧ e.platform = "Android") := by
  rintro e he ⟨hw, hp⟩
  simp only [get_app_store_data, List.mem_append] at he
  rcases he with hA | hI
  · obtain ⟨p, hpmem, hps⟩ := List.mem_filterMap.1 hA
    obtain ⟨hw', _⟩ := processAndroid_some hps
    have hp1 : p.1 = n0 := by rw [← hw', hw]
    have hpmem' : (n0, p.2) ∈ regA := by
      rw [← hp1]
      simpa using hpmem
    have hid : p.2 = id0 := keys_nodup_val_eq regA hnd hpmem' hmem
    rw [show p = (n0, id0) from Prod.ext hp1 hid] at hps
    simp [processAndroid, hq, hu] at hps
  · obtain ⟨p, _, hps⟩ := List.mem_filterMap.1 hI
    have := (processIos_some hps).2
    rw [hp] at this
    exact absurd this (by decide)

/-- C10 witness: with the `W0` details lacking `updated`, the aggregate
`W1` entry is (of course) not a `W0`/Android entry — obtained by applying
the theorem to the concrete run, whose output is exactly `[demo_entry]`. -/
theorem c10_missing_updated_app :
    ¬(demo_entry.wallet = "W0" ∧ demo_entry.platform = "Android") :=
  c10_missing_updated demo_fmt_ts demo_api_noupd (fun _ => none)
    [("W1", "a1"), ("W0", "a0")] [] "W0" "a0" demo_android_noupd
    (by decide) (by decide) (by decide) (by decide) demo_entry (by decide)

end ProofDevelopment
